import Mathlib

/-!
Shallow embedding of the Janus signaling client
(`src/spaces/core/JanusClient.ts`) and of the audio streaming loop
(`src/spaces/plugins/SttTtsPlugin.ts`) of `agent-twitter-client`,
together with proofs of the specification claims about the event
correlator, the room protocol, feed discovery, the transport layer and
audio framing.
-/

/-- A publisher descriptor as it appears inside
`plugindata.data.publishers` of a videoroom event
(`subscribeSpeaker`, JanusClient.ts lines 95-104). -/
structure Publisher where
  id : Nat
  display : Option String
  periscope_user_id : Option String
deriving DecidableEq, Repr

/-- The shape of a decoded Janus long-poll event, restricted to the
fields the client inspects.  A `none` field models an absent (or
`undefined`) JSON field.  `plugin` is `plugindata.plugin`, `videoroom`
is `plugindata.data.videoroom`, `dataId` is `plugindata.data.id`,
`publishers` is `plugindata.data.publishers`, `jsepType` is
`jsep.type`, `errorReason` is `error.reason`. -/
structure JanusEvent where
  janus : Option String
  sender : Option Nat
  plugin : Option String
  videoroom : Option String
  dataId : Option Nat
  publishers : Option (List Publisher)
  jsepType : Option String
  errorReason : Option String
deriving DecidableEq, Repr

/-- An event waiter as stored in `this.eventWaiters`
(JanusClient.ts lines 33-37): a predicate plus the resolve/reject
callbacks of the promise returned by `waitForJanusEvent`.  The
callbacks are represented by a unique identifier `wid` for the pending
promise; resolving the waiter with event `e` is modelled as emitting
the pair `(wid, e)`. -/
structure Waiter where
  wid : Nat
  predicate : JanusEvent → Bool

/-- The waiter-dispatch loop at the end of `handleJanusEvent`
(JanusClient.ts lines 484-491): scan the waiter array in insertion
order; at the first waiter whose predicate accepts the event, splice
it out of the array, resolve it with the event, and `break`.  Returns
the updated waiter array together with the resolution performed, if
any. -/
def dispatch : List Waiter → JanusEvent → List Waiter × Option (Nat × JanusEvent)
  | [], _ => ([], none)
  | w :: rest, evt =>
    if w.predicate evt then (rest, some (w.wid, evt))
    else
      let r := dispatch rest evt
      (w :: r.1, r.2)

/-- The mutable state of a `JanusClient` instance that the claims
refer to: the stored `publisherId`, the waiter registry, the
poll-active flag and the session id. -/
structure ClientState where
  sessionId : Option Nat
  publisherId : Option Nat
  eventWaiters : List Waiter
  pollActive : Bool

/-- `handleJanusEvent` (JanusClient.ts lines 463-492): drop events
with no (falsy) `janus` field, drop keepalives before any dispatch,
overwrite `publisherId` whenever `plugindata.data.id` is truthy (a
numeric id is falsy exactly when it is 0), then run the waiter
dispatch loop.  Returns the new state and the resolution performed, if
any. -/
def handleJanusEvent (s : ClientState) (evt : JanusEvent) :
    ClientState × Option (Nat × JanusEvent) :=
  match evt.janus with
  | none => (s, none)
  | some j =>
    if j = "keepalive" then (s, none)
    else
      let pub := match evt.dataId with
        | some i => if i ≠ 0 then some i else s.publisherId
        | none => s.publisherId
      let d := dispatch s.eventWaiters evt
      ({ s with publisherId := pub, eventWaiters := d.1 }, d.2)

/-- `getPublisherId` (JanusClient.ts lines 239-241). -/
def getPublisherId (s : ClientState) : Option Nat :=
  s.publisherId

/-- The timer callback registered by `waitForJanusEvent`
(JanusClient.ts lines 536-549): when the deadline elapses, look the
waiter up in the registry (`indexOf`); if still present, splice it out
and reject its promise with the timeout error; if already gone, do
nothing.  Removal is by identity of the pending promise, i.e. by
`wid`.  The second component reports the rejected promise, if any. -/
def timeoutFire (ws : List Waiter) (wid : Nat) : List Waiter × Option Nat :=
  if ws.any (fun w => w.wid = wid) then
    (ws.eraseP (fun w => w.wid = wid), some wid)
  else
    (ws, none)

/-- The message of the rejection error built by `waitForJanusEvent`
on timeout (JanusClient.ts lines 543-547): it embeds the waiter's
description and the timeout bound. -/
def timeoutErrorMessage (description : String) (timeoutMs : Nat) : String :=
  "[JanusClient] waitForJanusEvent (expecting \"" ++ description ++
    "\") timed out after " ++ toString timeoutMs ++ "ms"

/-- One registry action observed by the waiter registry after
registration: either an event is dispatched to it by the poll loop, or
some waiter's deadline timer fires. -/
inductive RegAction where
  | ev : JanusEvent → RegAction
  | deadline : Nat → RegAction

/-- Run a sequence of registry actions over a waiter registry,
collecting the ids of the waiters resolved (in order) and the ids of
the waiters removed-and-rejected at their deadline (in order). -/
def runActions : List Waiter → List RegAction → List Waiter × List Nat × List Nat
  | ws, [] => (ws, [], [])
  | ws, RegAction.ev e :: rest =>
    let d := dispatch ws e
    let r := runActions d.1 rest
    (r.1, (d.2.map Prod.fst).toList ++ r.2.1, r.2.2)
  | ws, RegAction.deadline wid :: rest =>
    let t := timeoutFire ws wid
    let r := runActions t.1 rest
    (r.1, r.2.1, t.2.toList ++ r.2.2)

/-- The waiter ids present in a registry, in registration order. -/
def wids (ws : List Waiter) : List Nat :=
  ws.map Waiter.wid

/-- The predicate of the waiter registered by `joinRoom`
(JanusClient.ts lines 355-362): a videoroom `joined` event. -/
def joinedPred (e : JanusEvent) : Bool :=
  e.janus == some "event" &&
  e.plugin == some "janus.plugin.videoroom" &&
  e.videoroom == some "joined"

/-- The predicate of the feed-discovery waiter registered by
`subscribeSpeaker` (JanusClient.ts lines 84-93): a videoroom `event`
carrying a non-empty `publishers` array. -/
def publishersPred (e : JanusEvent) : Bool :=
  e.janus == some "event" &&
  e.plugin == some "janus.plugin.videoroom" &&
  e.videoroom == some "event" &&
  (match e.publishers with
   | some l => decide (0 < l.length)
   | none => false)

/-- The predicate of the `attached + offer` waiter registered by
`subscribeSpeaker` (JanusClient.ts lines 123-132): a videoroom
`attached` event whose `sender` equals this subscription's own
subscriber handle id and which carries an SDP offer. -/
def attachedOfferPred (subscriberHandleId : Nat) (e : JanusEvent) : Bool :=
  e.janus == some "event" &&
  e.sender == some subscriberHandleId &&
  e.plugin == some "janus.plugin.videoroom" &&
  e.videoroom == some "attached" &&
  e.jsepType == some "offer"

/-- The publisher-list scan of `subscribeSpeaker`
(JanusClient.ts lines 95-98): `list.find` of the first entry whose
`display` or `periscope_user_id` equals the requested user id. -/
def findSpeaker (userId : String) (list : List Publisher) : Option Publisher :=
  list.find? (fun p => p.display == some userId || p.periscope_user_id == some userId)

/-- Outcome of the feed-discovery phase of `subscribeSpeaker`. -/
inductive DiscoveryResult where
  | timeout : DiscoveryResult
  | speakerNotFound : DiscoveryResult
  | found : Nat → DiscoveryResult
deriving DecidableEq, Repr

/-- The feed-discovery phase of `subscribeSpeaker`
(JanusClient.ts lines 84-104) over the sequence of events dispatched
before the 8000 ms waiter deadline: the waiter resolves with the first
event satisfying `publishersPred`; the resolved list is then scanned
once with `findSpeaker`; a missing entry throws the
`No publisher found` error immediately; if no event satisfies
`publishersPred` before the deadline, the waiter times out. -/
def discoverFeed (userId : String) (eventsBeforeDeadline : List JanusEvent) :
    DiscoveryResult :=
  match eventsBeforeDeadline.find? publishersPred with
  | none => DiscoveryResult.timeout
  | some e =>
    match e.publishers with
    | none => DiscoveryResult.speakerNotFound
    | some list =>
      match findSpeaker userId list with
      | none => DiscoveryResult.speakerNotFound
      | some pub => DiscoveryResult.found pub.id

/-- An HTTP response as seen by the transport helpers: `ok` is
`resp.ok` (2xx), `status` is `resp.status`, and the decoded JSON body
is retained as the fields the client reads (`janus`, `data.id`). -/
structure HttpResponse where
  ok : Bool
  status : Nat
  bodyJanus : Option String
  bodyDataId : Option Nat
deriving DecidableEq, Repr

/-- `createSession` (JanusClient.ts lines 243-265) as a function of
the gateway's HTTP response: throw a fixed error on non-2xx, throw a
fixed error when `json.janus` is not `success`, otherwise return
`json.data.id`. -/
def createSession (resp : HttpResponse) : Except String (Option Nat) :=
  if !resp.ok then Except.error "[JanusClient] createSession failed"
  else if resp.bodyJanus ≠ some "success" then
    Except.error "[JanusClient] createSession invalid response"
  else Except.ok resp.bodyDataId

/-- `attachPlugin` (JanusClient.ts lines 267-292) as a function of the
gateway's HTTP response (the no-session guard is taken as satisfied,
as it is on every call site). -/
def attachPlugin (resp : HttpResponse) : Except String (Option Nat) :=
  if !resp.ok then Except.error "[JanusClient] attachPlugin failed"
  else if resp.bodyJanus ≠ some "success" then
    Except.error "[JanusClient] attachPlugin invalid response"
  else Except.ok resp.bodyDataId

/-- `sendJanusMessage` (JanusClient.ts lines 403-433) as a function of
the gateway's HTTP response: throw an error embedding the HTTP status
on non-2xx; on 2xx resolve without reading the response body. -/
def sendJanusMessage (resp : HttpResponse) : Except String Unit :=
  if !resp.ok then
    Except.error ("[JanusClient] sendJanusMessage failed => " ++ toString resp.status)
  else Except.ok ()

/-- `createRoom` (JanusClient.ts lines 294-348) as a function of the
gateway's HTTP response: throw an error embedding the HTTP status on
non-2xx, an error embedding `error.reason` on a `janus:"error"` body,
an error when the body is not a videoroom `created` confirmation, and
otherwise return.  `bodyVideoroom` is `plugindata.data.videoroom` and
`bodyErrorReason` is `error.reason` of the decoded body. -/
def createRoom (resp : HttpResponse) (bodyVideoroom : Option String)
    (bodyErrorReason : Option String) : Except String Unit :=
  if !resp.ok then
    Except.error ("[JanusClient] createRoom failed => " ++ toString resp.status)
  else if resp.bodyJanus == some "error" then
    Except.error ("[JanusClient] createRoom error => " ++
      bodyErrorReason.getD "Unknown error")
  else if bodyVideoroom ≠ some "created" then
    Except.error "[JanusClient] unexpected createRoom response"
  else Except.ok ()

/-- JavaScript truthiness of a possibly-absent numeric id: `undefined`
and `0` are falsy. -/
def truthyId (v : Option Nat) : Option Nat :=
  match v with
  | some i => if i = 0 then none else some i
  | none => none

/-- The externally observable steps of the publisher handshake
`initialize()` (JanusClient.ts lines 51-76), in the order the code
performs them.  A `...Request` step records that the corresponding
HTTP request was issued (whether or not it then succeeded);
`joinWaiterRegistered` records `joinRoom` registering its
`Host Joined Event` waiter; `joinedConfirmed` records that waiter
resolving with a matching videoroom `joined` event. -/
inductive HandshakeStep where
  | sessionRequest : HandshakeStep
  | attachRequest : HandshakeStep
  | pollStart : HandshakeStep
  | createRoomRequest : HandshakeStep
  | joinWaiterRegistered : HandshakeStep
  | joinRequest : HandshakeStep
  | joinedConfirmed : HandshakeStep
  | configureRequest : HandshakeStep
deriving DecidableEq, Repr

/-- The environment of one run of `initialize()`: the gateway's HTTP
responses to each request, the decoded `createRoom` body fields, and
the events dispatched to the waiter registry before the 12000 ms
deadline of the `Host Joined Event` waiter. -/
structure HandshakeOracle where
  sessionResp : HttpResponse
  attachResp : HttpResponse
  roomResp : HttpResponse
  roomBodyVideoroom : Option String
  roomBodyErrorReason : Option String
  joinResp : HttpResponse
  joinEvents : List JanusEvent
  configureResp : HttpResponse

/-- The trace of handshake steps performed by one run of
`initialize()` (JanusClient.ts lines 51-76): each `await`ed step must
complete before the next is issued, and a thrown error aborts the
whole run.  `joinRoom` (lines 350-375) first registers the
`Host Joined Event` waiter, then sends the join message, then awaits
the waiter; the waiter resolves only if some event before its deadline
satisfies `joinedPred`, otherwise `joinRoom` throws the timeout error
and `initialize()` aborts, so `configurePublisher` (lines 377-401) and
its configure request are reached only after the joined confirmation.
The falsy-id guards of `attachPlugin`, `createRoom` and `joinRoom`
(`if (!this.sessionId || !this.handleId) throw`) are modelled with
`truthyId`. -/
def initializeTrace (o : HandshakeOracle) : List HandshakeStep :=
  match createSession o.sessionResp with
  | Except.error _ => [HandshakeStep.sessionRequest]
  | Except.ok sid =>
    match truthyId sid with
    | none => [HandshakeStep.sessionRequest]
    | some _ =>
      match attachPlugin o.attachResp with
      | Except.error _ => [HandshakeStep.sessionRequest, HandshakeStep.attachRequest]
      | Except.ok hid =>
        match truthyId hid with
        | none => [HandshakeStep.sessionRequest, HandshakeStep.attachRequest,
            HandshakeStep.pollStart]
        | some _ =>
          match createRoom o.roomResp o.roomBodyVideoroom o.roomBodyErrorReason with
          | Except.error _ => [HandshakeStep.sessionRequest, HandshakeStep.attachRequest,
              HandshakeStep.pollStart, HandshakeStep.createRoomRequest]
          | Except.ok _ =>
            match sendJanusMessage o.joinResp with
            | Except.error _ => [HandshakeStep.sessionRequest, HandshakeStep.attachRequest,
                HandshakeStep.pollStart, HandshakeStep.createRoomRequest,
                HandshakeStep.joinWaiterRegistered, HandshakeStep.joinRequest]
            | Except.ok _ =>
              if o.joinEvents.any joinedPred then
                [HandshakeStep.sessionRequest, HandshakeStep.attachRequest,
                 HandshakeStep.pollStart, HandshakeStep.createRoomRequest,
                 HandshakeStep.joinWaiterRegistered, HandshakeStep.joinRequest,
                 HandshakeStep.joinedConfirmed, HandshakeStep.configureRequest]
              else
                [HandshakeStep.sessionRequest, HandshakeStep.attachRequest,
                 HandshakeStep.pollStart, HandshakeStep.createRoomRequest,
                 HandshakeStep.joinWaiterRegistered, HandshakeStep.joinRequest]

/-- The temporal check used to state the configure-after-joined claim:
scanning the trace left to right, no `configureRequest` occurs before
the first `joinedConfirmed`. -/
def confirmedBeforeConfigure : List HandshakeStep → Bool
  | [] => true
  | s :: rest =>
    if s = HandshakeStep.configureRequest then false
    else if s = HandshakeStep.joinedConfirmed then true
    else confirmedBeforeConfigure rest

/-- `FRAME_SIZE` of `streamToJanus` (SttTtsPlugin.ts line 424):
10 ms of audio at 48000 Hz. -/
def FRAME_SIZE : Nat := 480

/-- `streamToJanus` (SttTtsPlugin.ts lines 419-438): starting at
`offset = 0` and while `offset + FRAME_SIZE <= samples.length`, copy
the 480-sample slice at `offset` into a fresh frame, push it via
`pushLocalAudio`, await a 10 ms delay, and advance by `FRAME_SIZE`.
The result lists, in push order, each pushed frame together with the
delay in milliseconds awaited after it. -/
def streamToJanus (samples : List Int) (offset : Nat) : List (List Int × Nat) :=
  if _h : offset + FRAME_SIZE ≤ samples.length then
    (((samples.drop offset).take FRAME_SIZE, 10)) ::
      streamToJanus samples (offset + FRAME_SIZE)
  else []
termination_by samples.length - offset
decreasing_by
  simp only [FRAME_SIZE] at *
  omega

/-- `stop` (JanusClient.ts lines 222-229): clear the poll-active flag
(and close the peer connection); the waiter registry is not touched. -/
def stop (s : ClientState) : ClientState :=
  { s with pollActive := false }

/-- The payload obtained by one poll iteration: either `resp.json()`
failed or produced something with no usable fields (`malformed`), the
HTTP poll itself failed (`httpError`), or a decoded event. -/
inductive PollPayload where
  | malformed : PollPayload
  | httpError : Nat → PollPayload
  | event : JanusEvent → PollPayload

/-- One iteration of the recursive poll loop `doPoll`
(JanusClient.ts lines 437-459).  Returns the state after the
iteration, the waiter resolution performed (if any), and whether the
next iteration is scheduled.  When the guard
`!this.pollActive || !this.sessionId` fires, the iteration returns
without polling and without scheduling; otherwise any failure of the
fetch or of the JSON decode is caught and the next iteration is
scheduled unconditionally. -/
def pollIteration (s : ClientState) (p : PollPayload) :
    ClientState × Option (Nat × JanusEvent) × Bool :=
  if s.pollActive && s.sessionId.isSome then
    match p with
    | PollPayload.malformed => (s, none, true)
    | PollPayload.httpError _ => (s, none, true)
    | PollPayload.event e =>
      let r := handleJanusEvent s e
      (r.1, r.2, true)
  else
    (s, none, false)

/-- Iterating the poll loop over a stream of payloads: each iteration
handles one payload and, when it schedules a next iteration, the loop
continues with the rest of the stream. -/
def pollLoop : ClientState → List PollPayload → ClientState × List (Nat × JanusEvent)
  | s, [] => (s, [])
  | s, p :: rest =>
    let it := pollIteration s p
    if it.2.2 then
      let r := pollLoop it.1 rest
      (r.1, it.2.1.toList ++ r.2)
    else
      (it.1, [])

/-! Concrete sample data used by witnesses and counterexamples. -/

/-- An event with every field absent. -/
def baseEvent : JanusEvent :=
  { janus := none, sender := none, plugin := none, videoroom := none,
    dataId := none, publishers := none, jsepType := none, errorReason := none }

/-- A videoroom room event pushing a publisher list containing only
the speaker `alice` (feed id 99). -/
def ePubAlice : JanusEvent :=
  { baseEvent with
    janus := some "event", plugin := some "janus.plugin.videoroom",
    videoroom := some "event",
    publishers := some [{ id := 99, display := some "alice", periscope_user_id := none }] }

/-- A videoroom room event pushing a publisher list containing only
the speaker `bob` (feed id 100). -/
def ePubBob : JanusEvent :=
  { baseEvent with
    janus := some "event", plugin := some "janus.plugin.videoroom",
    videoroom := some "event",
    publishers := some [{ id := 100, display := some "bob", periscope_user_id := none }] }

/-- A videoroom `attached` event carrying an SDP offer, attributed to
subscriber handle 7. -/
def eAttached7 : JanusEvent :=
  { baseEvent with
    janus := some "event", sender := some 7,
    plugin := some "janus.plugin.videoroom",
    videoroom := some "attached", jsepType := some "offer" }

/-- A videoroom `joined` confirmation carrying publisher id 42. -/
def eJoined42 : JanusEvent :=
  { baseEvent with
    janus := some "event", plugin := some "janus.plugin.videoroom",
    videoroom := some "joined", dataId := some 42 }

/-- A room event attributed to subscriber handle 7 that carries both a
publisher list and a `plugindata.data.id` field (id 101). -/
def eSubRoom101 : JanusEvent :=
  { baseEvent with
    janus := some "event", sender := some 7,
    plugin := some "janus.plugin.videoroom", videoroom := some "event",
    dataId := some 101,
    publishers := some [{ id := 99, display := some "alice", periscope_user_id := none }] }

/-- Two feed-discovery waiters as registered by two concurrent
`subscribeSpeaker` calls: both use the very same (handle-agnostic)
`publishersPred`. -/
def wDiscover1 : Waiter := { wid := 1, predicate := publishersPred }

/-- Second concurrently registered feed-discovery waiter. -/
def wDiscover2 : Waiter := { wid := 2, predicate := publishersPred }

/-- A non-2xx gateway response with status 500 and a decoded body. -/
def respFail500 : HttpResponse :=
  { ok := false, status := 500, bodyJanus := some "error", bodyDataId := none }

/-- A non-2xx gateway response with status 404 and a different decoded
body. -/
def respFail404 : HttpResponse :=
  { ok := false, status := 404, bodyJanus := some "gone", bodyDataId := some 3 }

/-- A 2xx gateway success response carrying `data.id = 5`. -/
def respOk5 : HttpResponse :=
  { ok := true, status := 200, bodyJanus := some "success", bodyDataId := some 5 }

/-- A handshake environment in which every HTTP request is
acknowledged with 2xx (including the join request) but no videoroom
`joined` event ever arrives before the join waiter's deadline. -/
def oracleJoinAckOnly : HandshakeOracle :=
  { sessionResp := respOk5, attachResp := respOk5,
    roomResp := { ok := true, status := 200, bodyJanus := some "ack", bodyDataId := none },
    roomBodyVideoroom := some "created", roomBodyErrorReason := none,
    joinResp := respOk5, joinEvents := [ePubAlice],
    configureResp := respOk5 }

/-- A fully successful handshake environment: every HTTP request is
acknowledged and a videoroom `joined` event arrives in time. -/
def oracleAllOk : HandshakeOracle :=
  { oracleJoinAckOnly with joinEvents := [ePubAlice, eJoined42] }

/-- A running client state with one registered discovery waiter. -/
def sRunning : ClientState :=
  { sessionId := some 11, publisherId := some 42,
    eventWaiters := [wDiscover1], pollActive := true }

/-! Helper lemmas about the dispatch loop and the waiter registry. -/

/-- When the dispatch loop resolves nothing, the registry is unchanged
and no registered predicate accepted the event. -/
theorem dispatch_none_eq (ws : List Waiter) (e : JanusEvent)
    (h : (dispatch ws e).2 = none) :
    (dispatch ws e).1 = ws ∧ ∀ w ∈ ws, w.predicate e = false := by
  induction ws with
  | nil => simp [dispatch]
  | cons w rest ih =>
    by_cases hp : w.predicate e = true
    · simp [dispatch, hp] at h
    · simp only [dispatch, hp, Bool.false_eq_true, if_false] at h ⊢
      obtain ⟨h1, h2⟩ := ih h
      refine ⟨by rw [h1], ?_⟩
      intro u hu
      rcases List.mem_cons.mp hu with rfl | hu
      · simpa using hp
      · exact h2 u hu

/-- When the dispatch loop resolves a waiter, the resolved waiter is
the first one in registration order whose predicate accepts the event,
it is resolved with that very event, and it (alone) is removed from
the registry. -/
theorem dispatch_some_eq (ws : List Waiter) (e : JanusEvent) (i : Nat) (ev : JanusEvent)
    (h : (dispatch ws e).2 = some (i, ev)) :
    ev = e ∧ ∃ pre w post, ws = pre ++ w :: post ∧ w.wid = i ∧
      w.predicate e = true ∧ (∀ u ∈ pre, u.predicate e = false) ∧
      (dispatch ws e).1 = pre ++ post := by
  induction ws with
  | nil => simp [dispatch] at h
  | cons w rest ih =>
    by_cases hp : w.predicate e = true
    · simp only [dispatch, hp, if_true, Option.some.injEq, Prod.mk.injEq] at h ⊢
      obtain ⟨hi, hev⟩ := h
      subst hev
      exact ⟨rfl, [], w, rest, rfl, hi, hp, by simp, rfl⟩
    · simp only [dispatch, hp, Bool.false_eq_true, if_false] at h ⊢
      obtain ⟨hev, pre, u, post, hsplit, hwid, hu, hpre, hrest⟩ := ih h
      refine ⟨hev, w :: pre, u, post, by simp [hsplit], hwid, hu, ?_, by simp [hrest]⟩
      intro v hv
      rcases List.mem_cons.mp hv with rfl | hv
      · simpa using hp
      · exact hpre v hv

/-- The dispatch loop does resolve the first waiter whose predicate
accepts the event, removing exactly it. -/
theorem dispatch_first_match (pre : List Waiter) (w : Waiter) (post : List Waiter)
    (e : JanusEvent) (hpre : ∀ u ∈ pre, u.predicate e = false)
    (hw : w.predicate e = true) :
    dispatch (pre ++ w :: post) e = (pre ++ post, some (w.wid, e)) := by
  induction pre with
  | nil => simp [dispatch, hw]
  | cons u us ih =>
    have hu : u.predicate e = false := hpre u (by simp)
    have ih2 := ih (fun v hv => hpre v (by simp [hv]))
    simp [dispatch, hu, ih2]

/-- The registry ids before a dispatch are a permutation of the
resolved id (if any) followed by the registry ids after it. -/
theorem dispatch_wids_perm (ws : List Waiter) (e : JanusEvent) :
    List.Perm (wids ws)
      (((dispatch ws e).2.map Prod.fst).toList ++ wids (dispatch ws e).1) := by
  induction ws with
  | nil => simp [dispatch, wids]
  | cons w rest ih =>
    by_cases hp : w.predicate e = true
    · simp [dispatch, hp, wids]
    · simp only [dispatch, hp, Bool.false_eq_true, if_false, wids, List.map_cons]
      refine List.Perm.trans (List.Perm.cons w.wid ih) ?_
      exact (List.perm_middle).symm

/-- A deadline removal removes the rejected waiter's id from the
registry (given distinct ids). -/
theorem timeoutFire_not_mem (ws : List Waiter) (wid : Nat)
    (h : (wids ws).Nodup) :
    wid ∉ wids (ws.eraseP (fun w => w.wid = wid)) := by
  induction ws with
  | nil => simp [wids]
  | cons w rest ih =>
    simp only [wids, List.map_cons, List.nodup_cons] at h
    simp only [List.eraseP_cons]
    by_cases hw : w.wid = wid
    · simp only [hw, decide_True, cond_true]
      rw [← hw]
      simpa [wids] using h.1
    · simp only [hw, decide_False, cond_false, decide_eq_true_eq]
      simp only [wids, List.map_cons, List.mem_cons, not_or]
      exact ⟨fun hc => hw hc.symm, ih h.2⟩

/-- When the rejected waiter is still registered, the registry ids
before the deadline removal are a permutation of the removed id
followed by the registry ids after it. -/
theorem timeoutFire_perm (ws : List Waiter) (wid : Nat)
    (h : ws.any (fun w => w.wid = wid) = true) :
    List.Perm (wids ws) (wid :: wids (ws.eraseP (fun w => w.wid = wid))) := by
  induction ws with
  | nil => simp at h
  | cons w rest ih =>
    simp only [List.eraseP_cons]
    by_cases hw : w.wid = wid
    · simp only [hw, decide_True, cond_true]
      simp [wids, hw]
    · simp only [hw, decide_False, cond_false, decide_eq_true_eq]
      have hrest : rest.any (fun w => w.wid = wid) = true := by
        simpa [List.any_cons, hw] using h
      simp only [wids, List.map_cons]
      exact List.Perm.trans (List.Perm.cons w.wid (ih hrest)) (List.Perm.swap _ _ _)

/-- Over any run of dispatches and deadline firings, the initial
registry ids are a permutation of the resolved ids, the
deadline-removed ids, and the final registry ids taken together. -/
theorem runActions_perm (ws : List Waiter) (acts : List RegAction) :
    List.Perm (wids ws)
      ((runActions ws acts).2.1 ++ (runActions ws acts).2.2 ++
        wids (runActions ws acts).1) := by
  induction acts generalizing ws with
  | nil => simp [runActions]
  | cons a rest ih =>
    cases a with
    | ev e =>
      simp only [runActions]
      refine List.Perm.trans (dispatch_wids_perm ws e) ?_
      refine List.Perm.trans (List.Perm.append_left _ (ih (dispatch ws e).1)) ?_
      simp [List.append_assoc]
    | deadline wid =>
      by_cases h : ws.any (fun w => w.wid = wid) = true
      · have hperm := timeoutFire_perm ws wid h
        have hih := ih (List.eraseP (fun w => decide (w.wid = wid)) ws)
        simp only [runActions, timeoutFire, h, if_true, Option.toList_some]
        refine hperm.trans ((hih.cons wid).trans ?_)
        have hm := (@List.perm_middle Nat wid
          ((runActions (List.eraseP (fun w => decide (w.wid = wid)) ws) rest).2.1)
          ((runActions (List.eraseP (fun w => decide (w.wid = wid)) ws) rest).2.2 ++
            wids (runActions (List.eraseP (fun w => decide (w.wid = wid)) ws) rest).1)).symm
        simpa [List.append_assoc] using hm
      · have hih := ih ws
        simp only [runActions, timeoutFire, h, if_false, Option.toList_none]
        simpa using hih

/-- Every resolved id was present in the registry at the start of the
run. -/
theorem runActions_resolved_subset (ws : List Waiter) (acts : List RegAction) :
    ∀ i ∈ (runActions ws acts).2.1, i ∈ wids ws := by
  intro i hi
  exact (runActions_perm ws acts).mem_iff.mpr (by simp [hi])

/-- `List.find?` returns the first element satisfying the predicate:
the list splits around it with every earlier element failing the
predicate. -/
theorem find?_first {α : Type} (p : α → Bool) (l : List α) (a : α)
    (h : l.find? p = some a) :
    p a = true ∧ ∃ l1 l2, l = l1 ++ a :: l2 ∧ ∀ b ∈ l1, p b = false := by
  induction l with
  | nil => simp at h
  | cons x xs ih =>
    by_cases hx : p x = true
    · rw [List.find?_cons_of_pos _ hx] at h
      cases h
      exact ⟨hx, [], xs, rfl, by simp⟩
    · rw [List.find?_cons_of_neg _ (by simpa using hx)] at h
      obtain ⟨ha, l1, l2, hsplit, hl1⟩ := ih h
      refine ⟨ha, x :: l1, l2, by simp [hsplit], ?_⟩
      intro b hb
      rcases List.mem_cons.mp hb with rfl | hb
      · simpa using hx
      · exact hl1 b hb

/-- The number of frames pushed by the streaming loop is the number of
whole 480-sample frames in the input. -/
theorem streamToJanus_length (samples : List Int) (offset : Nat) :
    (streamToJanus samples offset).length = (samples.length - offset) / FRAME_SIZE := by
  have hf : 0 < FRAME_SIZE := by norm_num [FRAME_SIZE]
  induction offset using streamToJanus.induct samples with
  | case1 offset h ih =>
    rw [streamToJanus, dif_pos h, List.length_cons, ih]
    have hle : FRAME_SIZE ≤ samples.length - offset := by omega
    have hnum : samples.length - (offset + FRAME_SIZE) =
        samples.length - offset - FRAME_SIZE := by omega
    rw [hnum]
    conv_rhs => rw [Nat.div_eq_sub_div hf hle]
  | case2 offset h =>
    rw [streamToJanus, dif_neg h]
    simp only [List.length_nil]
    rw [Nat.div_eq_of_lt (by omega)]

/-- Every pushed frame holds exactly 480 samples and is followed by a
10 ms delay. -/
theorem streamToJanus_frame_shape (samples : List Int) (offset : Nat) :
    ∀ fd ∈ streamToJanus samples offset, fd.1.length = FRAME_SIZE ∧ fd.2 = 10 := by
  induction offset using streamToJanus.induct samples with
  | case1 offset h ih =>
    rw [streamToJanus, dif_pos h]
    intro fd hfd
    rcases List.mem_cons.mp hfd with rfl | hfd
    · refine ⟨?_, rfl⟩
      simp only [List.length_take, List.length_drop]
      omega
    · exact ih fd hfd
  | case2 offset h =>
    rw [streamToJanus, dif_neg h]
    intro fd hfd
    simp at hfd

/-- Concatenating the pushed frames in push order reproduces the whole
input up to the last whole frame boundary. -/
theorem streamToJanus_flatten (samples : List Int) (offset : Nat) :
    ((streamToJanus samples offset).map Prod.fst).flatten =
      (samples.drop offset).take (FRAME_SIZE * ((samples.length - offset) / FRAME_SIZE)) := by
  have hf : 0 < FRAME_SIZE := by norm_num [FRAME_SIZE]
  induction offset using streamToJanus.induct samples with
  | case1 offset h ih =>
    rw [streamToJanus, dif_pos h, List.map_cons, List.flatten_cons]
    have hle : FRAME_SIZE ≤ samples.length - offset := by omega
    have hnum : samples.length - (offset + FRAME_SIZE) =
        samples.length - offset - FRAME_SIZE := by omega
    have hdiv : (samples.length - offset) / FRAME_SIZE =
        (samples.length - (offset + FRAME_SIZE)) / FRAME_SIZE + 1 := by
      rw [hnum, Nat.div_eq_sub_div hf hle]
    rw [hdiv, Nat.mul_succ]
    rw [Nat.add_comm (FRAME_SIZE * ((samples.length - (offset + FRAME_SIZE)) / FRAME_SIZE)) FRAME_SIZE]
    rw [List.take_add]
    exact congrArg (fun t => List.take FRAME_SIZE (List.drop offset samples) ++ t)
      (by rw [ih, List.drop_drop])
  | case2 offset h =>
    rw [streamToJanus, dif_neg h]
    have hz : (samples.length - offset) / FRAME_SIZE = 0 := Nat.div_eq_of_lt (by omega)
    rw [hz]
    simp

/-- C1: every event dispatched to the waiter registry resolves at most
one waiter — the first in registration (insertion) order whose
predicate accepts the event, which is resolved with that event and
removed; and over any run of dispatches and deadline removals on a
registry with distinct waiter ids, the resolved ids, the
deadline-removed ids and the surviving ids are mutually distinct, so a
waiter once resolved or removed at its deadline is never resolved
again by any later event. -/
theorem dispatch_resolves_first_match_only_once :
    (∀ (ws : List Waiter) (e : JanusEvent) (i : Nat) (ev : JanusEvent),
      (dispatch ws e).2 = some (i, ev) →
        ev = e ∧ ∃ pre w post, ws = pre ++ w :: post ∧ w.wid = i ∧
          w.predicate e = true ∧ (∀ u ∈ pre, u.predicate e = false) ∧
          (dispatch ws e).1 = pre ++ post)
    ∧ (∀ (pre : List Waiter) (w : Waiter) (post : List Waiter) (e : JanusEvent),
        (∀ u ∈ pre, u.predicate e = false) → w.predicate e = true →
        dispatch (pre ++ w :: post) e = (pre ++ post, some (w.wid, e)))
    ∧ (∀ (ws : List Waiter) (acts : List RegAction), (wids ws).Nodup →
        ((runActions ws acts).2.1 ++ (runActions ws acts).2.2 ++
          wids (runActions ws acts).1).Nodup) :=
  ⟨dispatch_some_eq, dispatch_first_match,
   fun ws acts h => (runActions_perm ws acts).nodup h⟩

/-- C1 witness: on a registry with two discovery waiters, a publisher
event resolves exactly the first; in a run in which the second then
times out, no id is resolved or removed twice. -/
theorem dispatch_resolves_first_match_only_once_witness :
    dispatch ([] ++ wDiscover1 :: [wDiscover2]) ePubAlice =
      ([] ++ [wDiscover2], some (wDiscover1.wid, ePubAlice))
    ∧ ((runActions [wDiscover1, wDiscover2]
          [RegAction.ev ePubAlice, RegAction.deadline 2]).2.1 ++
        (runActions [wDiscover1, wDiscover2]
          [RegAction.ev ePubAlice, RegAction.deadline 2]).2.2 ++
        wids (runActions [wDiscover1, wDiscover2]
          [RegAction.ev ePubAlice, RegAction.deadline 2]).1).Nodup :=
  ⟨dispatch_resolves_first_match_only_once.2.1 [] wDiscover1 [wDiscover2] ePubAlice
      (by simp) (by decide),
   dispatch_resolves_first_match_only_once.2.2 [wDiscover1, wDiscover2]
      [RegAction.ev ePubAlice, RegAction.deadline 2] (by decide)⟩

/-- C2 counterexample: the claim says the promise of every
`waitForJanusEvent` call resolves with the first dispatched event
satisfying its predicate when one arrives before the deadline.  With
two concurrently registered feed-discovery waiters (both using the
handle-agnostic `publishersPred` exactly as two concurrent
`subscribeSpeaker` calls do), a publishers event satisfying waiter 2's
predicate is dispatched before waiter 2's deadline, yet waiter 1
(registered earlier) claims it: waiter 2 is never resolved and is
rejected with the timeout error at its deadline. -/
theorem waitFor_first_match_counterexample :
    wDiscover2.predicate ePubAlice = true
    ∧ (runActions [wDiscover1, wDiscover2]
        [RegAction.ev ePubAlice, RegAction.deadline 2]).2.1 = [1]
    ∧ (runActions [wDiscover1, wDiscover2]
        [RegAction.ev ePubAlice, RegAction.deadline 2]).2.2 = [2] := by
  decide

/-- C2 (amended): the promise of a `waitForJanusEvent` call resolves
with the first dispatched event that satisfies its predicate and is
not claimed by an earlier-registered waiter; if its deadline fires
while the waiter is still registered, the waiter is removed and
rejected with the timeout error, whose message carries the description
and the timeout bound; once a waiter's id has left the registry, no
later dispatched event resolves it. -/
theorem waitFor_deadline_semantics :
    (∀ (pre : List Waiter) (w : Waiter) (post : List Waiter) (e : JanusEvent),
      (∀ u ∈ pre, u.predicate e = false) → w.predicate e = true →
      dispatch (pre ++ w :: post) e = (pre ++ post, some (w.wid, e)))
    ∧ (∀ (ws : List Waiter) (wid : Nat), (wids ws).Nodup →
        ws.any (fun w => w.wid = wid) = true →
        (timeoutFire ws wid).2 = some wid ∧ wid ∉ wids (timeoutFire ws wid).1)
    ∧ (∀ (ws : List Waiter) (wid : Nat),
        ws.any (fun w => w.wid = wid) = false → timeoutFire ws wid = (ws, none))
    ∧ (∀ (d : String) (t : Nat), ∃ s1 s2 s3,
        timeoutErrorMessage d t = s1 ++ d ++ s2 ++ toString t ++ s3)
    ∧ (∀ (ws : List Waiter) (acts : List RegAction) (wid : Nat),
        wid ∉ wids ws → wid ∉ (runActions ws acts).2.1) := by
  refine ⟨dispatch_first_match, ?_, ?_, ?_, ?_⟩
  · intro ws wid hnd hany
    constructor
    · simp [timeoutFire, hany]
    · simp only [timeoutFire, hany, if_true]
      exact timeoutFire_not_mem ws wid hnd
  · intro ws wid hany
    simp [timeoutFire, hany]
  · intro d t
    exact ⟨"[JanusClient] waitForJanusEvent (expecting \"",
      "\") timed out after ", "ms", rfl⟩
  · intro ws acts wid hmem hres
    exact hmem (runActions_resolved_subset ws acts wid hres)

/-- C2 witness: concrete instantiations of each clause of the amended
semantics, at the single-waiter registry holding a discovery waiter. -/
theorem waitFor_deadline_semantics_witness :
    dispatch ([] ++ wDiscover1 :: []) ePubAlice = ([] ++ [], some (wDiscover1.wid, ePubAlice))
    ∧ ((timeoutFire [wDiscover1] 1).2 = some 1 ∧ 1 ∉ wids (timeoutFire [wDiscover1] 1).1)
    ∧ timeoutFire [wDiscover1] 5 = ([wDiscover1], none)
    ∧ (∃ s1 s2 s3, timeoutErrorMessage "Host Joined Event" 12000 =
        s1 ++ "Host Joined Event" ++ s2 ++ toString 12000 ++ s3)
    ∧ 7 ∉ (runActions [wDiscover1] [RegAction.ev ePubAlice] ).2.1 :=
  ⟨waitFor_deadline_semantics.1 [] wDiscover1 [] ePubAlice (by simp) (by decide),
   waitFor_deadline_semantics.2.1 [wDiscover1] 1 (by decide) (by decide),
   waitFor_deadline_semantics.2.2.1 [wDiscover1] 5 (by decide),
   waitFor_deadline_semantics.2.2.2.1 "Host Joined Event" 12000,
   waitFor_deadline_semantics.2.2.2.2 [wDiscover1] [RegAction.ev ePubAlice] 7 (by decide)⟩

/-- C3: in every run of the publisher handshake, no configure request
is issued before the join waiter has confirmed a videoroom `joined`
event; confirmation itself requires such an event among those
dispatched before the waiter's deadline, so a successful HTTP
acknowledgement of the join request alone never lets the handshake
reach configure. -/
theorem configure_requires_joined_confirmation (o : HandshakeOracle) :
    confirmedBeforeConfigure (initializeTrace o) = true
    ∧ (HandshakeStep.joinedConfirmed ∈ initializeTrace o →
        o.joinEvents.any joinedPred = true)
    ∧ (o.joinEvents.any joinedPred = false →
        HandshakeStep.configureRequest ∉ initializeTrace o) := by
  rcases hcs : createSession o.sessionResp with msg | sid
  · simp only [initializeTrace, hcs]
    exact ⟨by decide, fun hm => absurd hm (by decide), fun _ => by decide⟩
  · rcases hts : truthyId sid with _ | sid'
    · simp only [initializeTrace, hcs, hts]
      exact ⟨by decide, fun hm => absurd hm (by decide), fun _ => by decide⟩
    · rcases hat : attachPlugin o.attachResp with msg | hid
      · simp only [initializeTrace, hcs, hts, hat]
        exact ⟨by decide, fun hm => absurd hm (by decide), fun _ => by decide⟩
      · rcases hth : truthyId hid with _ | hid'
        · simp only [initializeTrace, hcs, hts, hat, hth]
          exact ⟨by decide, fun hm => absurd hm (by decide), fun _ => by decide⟩
        · rcases hcr : createRoom o.roomResp o.roomBodyVideoroom o.roomBodyErrorReason
            with msg | u
          · simp only [initializeTrace, hcs, hts, hat, hth, hcr]
            exact ⟨by decide, fun hm => absurd hm (by decide), fun _ => by decide⟩
          · rcases hsj : sendJanusMessage o.joinResp with msg | u'
            · simp only [initializeTrace, hcs, hts, hat, hth, hcr, hsj]
              exact ⟨by decide, fun hm => absurd hm (by decide), fun _ => by decide⟩
            · by_cases hj : o.joinEvents.any joinedPred = true
              · simp only [initializeTrace, hcs, hts, hat, hth, hcr, hsj, hj, if_true]
                exact ⟨by decide, fun _ => trivial, fun hf => absurd hf (by decide)⟩
              · have hj' : o.joinEvents.any joinedPred = false := by
                  cases hx : o.joinEvents.any joinedPred
                  · rfl
                  · exact absurd hx hj
                simp only [initializeTrace, hcs, hts, hat, hth, hcr, hsj, hj',
                  Bool.false_eq_true, if_false]
                exact ⟨by decide, fun hm => absurd hm (by decide), fun _ => by decide⟩

/-- C3 witness: with every HTTP request acknowledged and a joined
event arriving, `joinedConfirmed` requires a matching event; with
every HTTP request acknowledged but no joined event before the
deadline, no configure request is ever issued. -/
theorem configure_requires_joined_confirmation_witness :
    oracleAllOk.joinEvents.any joinedPred = true
    ∧ HandshakeStep.configureRequest ∉ initializeTrace oracleJoinAckOnly :=
  ⟨(configure_requires_joined_confirmation oracleAllOk).2.1 (by decide),
   (configure_requires_joined_confirmation oracleJoinAckOnly).2.2 (by decide)⟩

/-- C4: the `attached + offer` waiters registered by two concurrent
`subscribeSpeaker` calls for distinct subscriber handles never
cross-resolve: an event accepted by one subscription's predicate is
rejected by the other's, and whichever order the two waiters were
registered in, dispatching such an event resolves the waiter with the
matching handle id and leaves the other registered. -/
theorem subscriber_waiters_no_cross_resolution
    (ha hb ia ib : Nat) (hne : ha ≠ hb) (e : JanusEvent)
    (he : attachedOfferPred ha e = true) :
    attachedOfferPred hb e = false
    ∧ dispatch [⟨ia, attachedOfferPred ha⟩, ⟨ib, attachedOfferPred hb⟩] e =
        ([⟨ib, attachedOfferPred hb⟩], some (ia, e))
    ∧ dispatch [⟨ib, attachedOfferPred hb⟩, ⟨ia, attachedOfferPred ha⟩] e =
        ([⟨ib, attachedOfferPred hb⟩], some (ia, e)) := by
  have hsa : e.sender = some ha := by
    have h2 := he
    simp only [attachedOfferPred, Bool.and_eq_true, beq_iff_eq] at h2
    exact h2.1.1.1.2
  have hfb : attachedOfferPred hb e = false := by
    cases hx : attachedOfferPred hb e
    · rfl
    · exfalso
      simp only [attachedOfferPred, Bool.and_eq_true, beq_iff_eq] at hx
      have hsb : e.sender = some hb := hx.1.1.1.2
      rw [hsa] at hsb
      exact hne (Option.some.inj hsb)
  refine ⟨hfb, ?_, ?_⟩
  · simp [dispatch, he]
  · simp [dispatch, he, hfb]

/-- C4 witness: a concrete attached-with-offer event for handle 7
resolves the subscription waiting on handle 7 and never the one
waiting on handle 9, in either registration order. -/
theorem subscriber_waiters_no_cross_resolution_witness :
    attachedOfferPred 9 eAttached7 = false
    ∧ dispatch [⟨1, attachedOfferPred 7⟩, ⟨2, attachedOfferPred 9⟩] eAttached7 =
        ([⟨2, attachedOfferPred 9⟩], some (1, eAttached7))
    ∧ dispatch [⟨2, attachedOfferPred 9⟩, ⟨1, attachedOfferPred 7⟩] eAttached7 =
        ([⟨2, attachedOfferPred 9⟩], some (1, eAttached7)) :=
  subscriber_waiters_no_cross_resolution 7 9 1 2 (by decide) eAttached7 (by decide)

/-- C5 counterexample: the claim says `subscribeSpeaker` fails with
the speaker-not-found error only when no matching publisher entry has
appeared by the expiry of the discovery timeout.  But the discovery
waiter resolves with the *first* non-empty publisher list, and a
missing entry there throws immediately: with an alice-only list pushed
first and a bob-carrying list pushed right after (both before the
deadline), `subscribeSpeaker("bob")` fails with speaker-not-found even
though a matching entry appeared before the timeout expired. -/
theorem feed_discovery_counterexample :
    discoverFeed "bob" [ePubAlice, ePubBob] = DiscoveryResult.speakerNotFound
    ∧ publishersPred ePubBob = true
    ∧ ePubBob.publishers = some [{ id := 100, display := some "bob", periscope_user_id := none }]
    ∧ findSpeaker "bob" [{ id := 100, display := some "bob", periscope_user_id := none }] =
        some { id := 100, display := some "bob", periscope_user_id := none } := by
  decide

/-- C5 (amended): feed discovery scans only the first event carrying a
non-empty publisher list: it selects the first entry there whose
`display` or `periscope_user_id` equals the requested user id,
ignoring non-matching entries; if that first list has no matching
entry, `subscribeSpeaker` fails with the speaker-not-found error
immediately, without waiting for further events or for the timeout;
the discovery timeout fires only when no non-empty publisher list
arrives at all before the deadline. -/
theorem feed_discovery_semantics (userId : String) (evts : List JanusEvent) :
    (evts.find? publishersPred = none → discoverFeed userId evts = DiscoveryResult.timeout)
    ∧ (∀ e l, evts.find? publishersPred = some e → e.publishers = some l →
        ((findSpeaker userId l = none →
           discoverFeed userId evts = DiscoveryResult.speakerNotFound)
         ∧ (∀ p, findSpeaker userId l = some p →
             discoverFeed userId evts = DiscoveryResult.found p.id
             ∧ (p.display = some userId ∨ p.periscope_user_id = some userId)
             ∧ ∃ l1 l2, l = l1 ++ p :: l2 ∧
                 ∀ q ∈ l1, q.display ≠ some userId ∧ q.periscope_user_id ≠ some userId))) := by
  constructor
  · intro hnone
    simp [discoverFeed, hnone]
  · intro e l hfind hpub
    constructor
    · intro hnf
      simp [discoverFeed, hfind, hpub, hnf]
    · intro p hfp
      refine ⟨by simp [discoverFeed, hfind, hpub, hfp], ?_, ?_⟩
      · have hp := (find?_first _ l p hfp).1
        simp only [Bool.or_eq_true, beq_iff_eq] at hp
        exact hp
      · obtain ⟨_, l1, l2, hsplit, hl1⟩ := find?_first _ l p hfp
        refine ⟨l1, l2, hsplit, ?_⟩
        intro q hq
        have hf := hl1 q hq
        simp only [Bool.or_eq_false_iff, beq_eq_false_iff_ne, ne_eq] at hf
        exact hf

/-- C5 witness: with no publisher list the discovery times out; with
an alice-only first list, looking for bob fails immediately; with a
bob-carrying first list, discovery resolves feed id 100 and the
matching entry matches by display name. -/
theorem feed_discovery_semantics_witness :
    discoverFeed "bob" [] = DiscoveryResult.timeout
    ∧ discoverFeed "bob" [ePubAlice] = DiscoveryResult.speakerNotFound
    ∧ (discoverFeed "bob" [ePubBob] =
        DiscoveryResult.found (Publisher.mk 100 (some "bob") none).id
       ∧ ((Publisher.mk 100 (some "bob") none).display = some "bob" ∨
           (Publisher.mk 100 (some "bob") none).periscope_user_id = some "bob")
       ∧ ∃ l1 l2, [Publisher.mk 100 (some "bob") none] =
            l1 ++ (Publisher.mk 100 (some "bob") none) :: l2 ∧
            ∀ q ∈ l1, q.display ≠ some "bob" ∧ q.periscope_user_id ≠ some "bob") :=
  ⟨(feed_discovery_semantics "bob" []).1 (by decide),
   ((feed_discovery_semantics "bob" [ePubAlice]).2 ePubAlice
      [Publisher.mk 99 (some "alice") none] (by decide) (by decide)).1 (by decide),
   ((feed_discovery_semantics "bob" [ePubBob]).2 ePubBob
      [Publisher.mk 100 (some "bob") none] (by decide) (by decide)).2
      (Publisher.mk 100 (some "bob") none) (by decide)⟩

/-- C6: the streaming loop pushes the input in consecutive frames of
exactly 480 samples, each frame a copy of the corresponding slice of
the input in order (their concatenation is exactly the input up to the
last whole-frame boundary), with one 10 ms pacing delay per frame; the
number of pushed frames is the number of whole 480-sample frames in
the input, so no full frame is dropped and only a trailing remainder
shorter than one frame is omitted. -/
theorem stream_frames_spec (samples : List Int) :
    (streamToJanus samples 0).length = samples.length / FRAME_SIZE
    ∧ (∀ fd ∈ streamToJanus samples 0, fd.1.length = FRAME_SIZE ∧ fd.2 = 10)
    ∧ ((streamToJanus samples 0).map Prod.fst).flatten =
        samples.take (FRAME_SIZE * (samples.length / FRAME_SIZE))
    ∧ samples.length - FRAME_SIZE * (samples.length / FRAME_SIZE) < FRAME_SIZE := by
  have hf : 0 < FRAME_SIZE := by norm_num [FRAME_SIZE]
  refine ⟨?_, streamToJanus_frame_shape samples 0, ?_, ?_⟩
  · simpa using streamToJanus_length samples 0
  · simpa using streamToJanus_flatten samples 0
  · have hmod := Nat.div_add_mod samples.length FRAME_SIZE
    have hlt := Nat.mod_lt samples.length hf
    omega

/-- C7 counterexample: the claim says every transport call throws a
`TransportError` carrying the HTTP status and response body on a
non-2xx response.  `createSession` throws the same fixed error for a
500 and for a 404 with a different body, so its error carries neither
status nor body; `sendJanusMessage` throws the same error for two
responses with the same status but different decoded bodies, so its
error carries the status but not the body; and on 2xx
`sendJanusMessage` resolves without returning the decoded response at
all. -/
theorem transport_error_counterexample :
    createSession respFail500 = Except.error "[JanusClient] createSession failed"
    ∧ createSession respFail500 = createSession respFail404
    ∧ respFail500.status ≠ respFail404.status
    ∧ sendJanusMessage respFail500 =
        Except.error "[JanusClient] sendJanusMessage failed => 500"
    ∧ sendJanusMessage respFail500 =
        sendJanusMessage { respFail404 with status := 500 }
    ∧ respFail500.bodyJanus ≠ ({ respFail404 with status := 500 } : HttpResponse).bodyJanus
    ∧ sendJanusMessage respOk5 = Except.ok () := by
  refine ⟨rfl, rfl, by decide, rfl, rfl, by decide, rfl⟩

/-- C7 (amended): on a non-2xx response, `createSession` and
`attachPlugin` throw a fixed error carrying neither the status nor the
body, while `sendJanusMessage` throws an error whose message embeds
the HTTP status (but not the body); each helper issues a single
request with no retry; on a 2xx response `sendJanusMessage` resolves
without decoding the response, and `createSession`/`attachPlugin`
return the decoded body's `data.id` after checking
`janus == "success"`, throwing a fixed error otherwise. -/
theorem transport_error_semantics (resp : HttpResponse) :
    (resp.ok = false →
      createSession resp = Except.error "[JanusClient] createSession failed"
      ∧ attachPlugin resp = Except.error "[JanusClient] attachPlugin failed"
      ∧ sendJanusMessage resp =
          Except.error ("[JanusClient] sendJanusMessage failed => " ++ toString resp.status))
    ∧ (resp.ok = true →
        sendJanusMessage resp = Except.ok ()
        ∧ (resp.bodyJanus = some "success" → createSession resp = Except.ok resp.bodyDataId
            ∧ attachPlugin resp = Except.ok resp.bodyDataId)
        ∧ (resp.bodyJanus ≠ some "success" →
            createSession resp = Except.error "[JanusClient] createSession invalid response"
            ∧ attachPlugin resp = Except.error "[JanusClient] attachPlugin invalid response")) := by
  constructor
  · intro hok
    exact ⟨by simp [createSession, hok], by simp [attachPlugin, hok],
      by simp [sendJanusMessage, hok]⟩
  · intro hok
    refine ⟨by simp [sendJanusMessage, hok], ?_, ?_⟩
    · intro hsucc
      exact ⟨by simp [createSession, hok, hsucc], by simp [attachPlugin, hok, hsucc]⟩
    · intro hsucc
      exact ⟨by simp [createSession, hok, hsucc], by simp [attachPlugin, hok, hsucc]⟩

/-- C7 witness: the amended transport semantics evaluated at the
concrete 500 response and at the concrete success response. -/
theorem transport_error_semantics_witness :
    (createSession respFail500 = Except.error "[JanusClient] createSession failed"
     ∧ attachPlugin respFail500 = Except.error "[JanusClient] attachPlugin failed"
     ∧ sendJanusMessage respFail500 =
         Except.error ("[JanusClient] sendJanusMessage failed => " ++ toString respFail500.status))
    ∧ sendJanusMessage respOk5 = Except.ok ()
    ∧ (createSession respOk5 = Except.ok respOk5.bodyDataId
        ∧ attachPlugin respOk5 = Except.ok respOk5.bodyDataId) :=
  ⟨(transport_error_semantics respFail500).1 (by decide),
   ((transport_error_semantics respOk5).2 (by decide)).1,
   ((transport_error_semantics respOk5).2 (by decide)).2.1 (by decide)⟩

/-- C8: `stop()` clears the poll-active flag, after which the poll
loop performs no further iterations (the next scheduled iteration
returns without polling or scheduling and resolves nothing), and the
waiter registry is left exactly as it was: no registered waiter is
resolved, rejected or removed by `stop()`. -/
theorem stop_semantics (s : ClientState) :
    (stop s).pollActive = false
    ∧ (stop s).eventWaiters = s.eventWaiters
    ∧ (∀ payloads, pollLoop (stop s) payloads = (stop s, []))
    ∧ (∀ wid, timeoutFire (stop s).eventWaiters wid = timeoutFire s.eventWaiters wid) := by
  refine ⟨rfl, rfl, ?_, fun _ => rfl⟩
  intro payloads
  cases payloads with
  | nil => rfl
  | cons p rest => simp [pollLoop, pollIteration, stop]

/-- C9: a poll iteration whose payload is malformed (a failed fetch, a
body that fails to decode, or a decoded object with no `janus` field)
leaves the client state unchanged — no waiter is resolved, rejected or
removed — throws nothing to the loop, and the next iteration is
scheduled normally. -/
theorem malformed_payload_dropped (s : ClientState) (e : JanusEvent)
    (hactive : s.pollActive = true) (hsession : s.sessionId.isSome = true) :
    pollIteration s PollPayload.malformed = (s, none, true)
    ∧ (∀ code, pollIteration s (PollPayload.httpError code) = (s, none, true))
    ∧ (e.janus = none → pollIteration s (PollPayload.event e) = (s, none, true)) := by
  refine ⟨?_, ?_, ?_⟩
  · simp [pollIteration, hactive, hsession]
  · intro code
    simp [pollIteration, hactive, hsession]
  · intro hj
    simp [pollIteration, hactive, hsession, handleJanusEvent, hj]

/-- C9 witness: in a running state holding a registered waiter, a
malformed payload and an event with no `janus` field are both dropped
without touching the state. -/
theorem malformed_payload_dropped_witness :
    pollIteration sRunning PollPayload.malformed = (sRunning, none, true)
    ∧ (∀ code, pollIteration sRunning (PollPayload.httpError code) = (sRunning, none, true))
    ∧ pollIteration sRunning (PollPayload.event baseEvent) = (sRunning, none, true) :=
  ⟨(malformed_payload_dropped sRunning baseEvent (by decide) (by decide)).1,
   (malformed_payload_dropped sRunning baseEvent (by decide) (by decide)).2.1,
   (malformed_payload_dropped sRunning baseEvent (by decide) (by decide)).2.2 (by decide)⟩

/-- C10: every event that passes the `janus` and keepalive guards of
`handleJanusEvent` and carries a truthy `plugindata.data.id`
overwrites the stored `publisherId` with that id — whatever its
`sender` or `videoroom` kind, so subscriber-attributed events and
publisher-list room events overwrite it too, and `getPublisherId()`
may change after any such event. -/
theorem publisher_id_overwrite (s : ClientState) (e : JanusEvent) (i : Nat)
    (hj : e.janus.isSome = true) (hk : e.janus ≠ some "keepalive")
    (hid : e.dataId = some i) (hnz : i ≠ 0) :
    getPublisherId (handleJanusEvent s e).1 = some i := by
  rcases hje : e.janus with _ | j
  · rw [hje] at hj
    simp at hj
  · have hjk : ¬(j = "keepalive") := fun h => hk (by rw [hje, h])
    simp [handleJanusEvent, getPublisherId, hje, hjk, hid, hnz]

/-- C10 witness: a room event attributed to subscriber handle 7 and
carrying a publisher list overwrites a previously stored publisher id
42 with its own `plugindata.data.id` of 101. -/
theorem publisher_id_overwrite_witness :
    getPublisherId sRunning = some 42
    ∧ getPublisherId (handleJanusEvent sRunning eSubRoom101).1 = some 101 :=
  ⟨rfl, publisher_id_overwrite sRunning eSubRoom101 101
    (by decide) (by decide) (by decide) (by decide)⟩
